import Mathlib

/-!
Verification development for the IITD Buddy retrieval-augmented QA app
(`src/main.py`).  The Python source is shallowly embedded: Python dict
payloads become association lists over a small value type `PyVal`,
fallible operations (`payload[key]` indexing, `str.join`, external
service calls) return `Except String`, and the Streamlit page flows
become pure functions from stubbed external services to an outcome
record that also counts the external calls made and records whether the
error channel (`st.error`) or warning channel (`st.warning`) was used.
-/

namespace IITDBuddy

/-- Model of a Python value as stored in a Qdrant payload or produced by
`json.loads`: strings, integers, lists and string-keyed dicts. -/
inductive PyVal where
  | str (s : String)
  | int (n : Int)
  | list (xs : List PyVal)
  | dict (entries : List (String × PyVal))

/-- A scored point returned by `client.query_points(...).points`:
`score` (similarity, never inspected by the app logic) and `payload`
(a dict, modelled as an association list). -/
structure Hit where
  score : Rat
  payload : List (String × PyVal)

/-- Python dict lookup: first binding of `key`, if any. -/
def lookupField : List (String × PyVal) → String → Option PyVal
  | [], _ => none
  | (k, v) :: rest, key => if k == key then some v else lookupField rest key

/-- Python `payload.get(key, default)`: total, missing key yields the default. -/
def pyGet (p : List (String × PyVal)) (key : String) (default : PyVal) : PyVal :=
  (lookupField p key).getD default

/-- Python `payload[key]`: raises `KeyError` when the key is missing. -/
def pyIndex (p : List (String × PyVal)) (key : String) : Except String PyVal :=
  match lookupField p key with
  | some v => .ok v
  | none => .error ("KeyError: " ++ key)

/-- Python `sep.join(list_of_strings)` on an already-validated string list. -/
def joinSep (sep : String) : List String → String
  | [] => ""
  | [x] => x
  | x :: y :: rest => x ++ sep ++ joinSep sep (y :: rest)

/-- A single-quote character, as used by Python `repr` of a string. -/
def squote : String := String.mk [Char.ofNat 39]

mutual

/-- Python `str(v)` as used by f-string interpolation. -/
def pyStr : PyVal → String
  | .str s => s
  | .int n => toString n
  | .list xs => "[" ++ joinSep ", " (pyReprList xs) ++ "]"
  | .dict es => "\x7b" ++ joinSep ", " (pyReprEntries es) ++ "\x7d"

/-- Python `repr(v)` (strings get quoted), used for elements of containers. -/
def pyRepr : PyVal → String
  | .str s => squote ++ s ++ squote
  | .int n => toString n
  | .list xs => "[" ++ joinSep ", " (pyReprList xs) ++ "]"
  | .dict es => "\x7b" ++ joinSep ", " (pyReprEntries es) ++ "\x7d"

def pyReprList : List PyVal → List String
  | [] => []
  | v :: vs => pyRepr v :: pyReprList vs

def pyReprEntries : List (String × PyVal) → List String
  | [] => []
  | (k, v) :: es => (squote ++ k ++ squote ++ ": " ++ pyRepr v) :: pyReprEntries es

end

mutual

/-- Python `json.dumps(v)` with its default separators. -/
def pyJsonDumps : PyVal → String
  | .str s => "\"" ++ s ++ "\""
  | .int n => toString n
  | .list xs => "[" ++ joinSep ", " (pyJsonDumpsList xs) ++ "]"
  | .dict es => "\x7b" ++ joinSep ", " (pyJsonDumpsEntries es) ++ "\x7d"

def pyJsonDumpsList : List PyVal → List String
  | [] => []
  | v :: vs => pyJsonDumps v :: pyJsonDumpsList vs

def pyJsonDumpsEntries : List (String × PyVal) → List String
  | [] => []
  | (k, v) :: es => ("\"" ++ k ++ "\": " ++ pyJsonDumps v) :: pyJsonDumpsEntries es

end

/-- Validate that every element of a Python list is a string, as
`str.join` does; the first non-string raises `TypeError`. -/
def pyStrList : List PyVal → Except String (List String)
  | [] => .ok []
  | .str s :: rest =>
    match pyStrList rest with
    | .error e => .error e
    | .ok ss => .ok (s :: ss)
  | _ :: _ => .error "TypeError: sequence item: expected str instance"

/-- Python `sep.join(v)`: succeeds on a list of strings (and on a string,
whose characters are joined, or a dict, whose keys are joined); raises
`TypeError` on a list containing a non-string or on a non-iterable. -/
def pyJoin (sep : String) (v : PyVal) : Except String String :=
  match v with
  | .list xs =>
    match pyStrList xs with
    | .error e => .error e
    | .ok ss => .ok (joinSep sep ss)
  | .str s => .ok (joinSep sep (s.toList.map (fun c => String.mk [c])))
  | .dict es => .ok (joinSep sep (es.map Prod.fst))
  | .int _ => .error "TypeError: can only join an iterable"

/-- Left-to-right effectful map, the semantics of a Python list
comprehension whose body may raise: the first failure aborts the whole
comprehension. -/
def mapExcept (f : α → Except String β) : List α → Except String (List β)
  | [] => .ok []
  | x :: xs =>
    match f x with
    | .error e => .error e
    | .ok y =>
      match mapExcept f xs with
      | .error e => .error e
      | .ok ys => .ok (y :: ys)

/-- Whether `pat` is a leading segment of `l`. -/
def listStartsWith : List Char → List Char → Bool
  | [], _ => true
  | _ :: _, [] => false
  | a :: as, b :: bs => a == b && listStartsWith as bs

/-- Whether `pat` occurs contiguously somewhere in `l`. -/
def occursWithin (pat : List Char) : List Char → Bool
  | [] => pat.isEmpty
  | b :: bs => listStartsWith pat (b :: bs) || occursWithin pat bs

/-- Substring test on strings, used to state "the rendered text contains …". -/
def strContains (s pat : String) : Bool :=
  occursWithin pat.toList s.toList

/-- Python string truthiness: non-empty. -/
def pyTruthyStr (s : String) : Bool := !(s == "")

/-! ## The context formatter of `search_qdrant` (main.py lines 159-163)

One block per hit:
`f"Resource: {hit.payload['title']}\nDescription: {hit.payload.get('description', 'N/A')}"`,
blocks joined with `"\n\n"`.  Note that `title` is read by direct
indexing (`KeyError` when missing) while `description` uses `.get`. -/

/-- One block of the resource context: direct `['title']` read, then
`.get('description', 'N/A')`. -/
def renderResourceBlock (h : Hit) : Except String String :=
  match pyIndex h.payload "title" with
  | .error e => .error e
  | .ok t =>
    .ok ("Resource: " ++ pyStr t ++ "\nDescription: "
      ++ pyStr (pyGet h.payload "description" (.str "N/A")))

/-- The `"\n\n".join(...)` comprehension of `search_qdrant`: left-to-right,
aborting on the first `KeyError`. -/
def buildResourceContext (hits : List Hit) : Except String String :=
  match mapExcept renderResourceBlock hits with
  | .error e => .error e
  | .ok blocks => .ok (joinSep "\n\n" blocks)

/-! ## External services and `search_qdrant` (main.py lines 148-168) -/

/-- The external embedder + vector index pair used by one flow: `encode`
models `embedding_model.encode(query).tolist()` (the float vector is
abstracted to a list of integers, its values are never inspected), and
`queryPoints` models `client.query_points(collection, vector, limit).points`.
Either call may raise, modelled by `Except`. -/
structure SearchSvc where
  encode : String → Except String (List Int)
  queryPoints : List Int → Nat → Except String (List Hit)

/-- Observable result of one `search_qdrant` call: the returned pair,
how many embedder / index calls were made, and whether `st.error` fired. -/
structure SearchOut where
  result : Option String × Option (List Hit)
  embedderCalls : Nat
  searchCalls : Nat
  errorShown : Bool

/-- `search_qdrant` (main.py lines 148-168): encode, search, then — only
when `hits` is truthy — build the context; any exception in the `try`
block (embedder, index, or the `KeyError` from a payload missing
`title`) is caught, `st.error` is shown and `(None, None)` is returned;
zero hits return `(None, None)` silently. -/
def search_qdrant (svc : SearchSvc) (query : String) (limit : Nat := 3) : SearchOut :=
  match svc.encode query with
  | .error _ => ⟨(none, none), 1, 0, true⟩
  | .ok vec =>
    match svc.queryPoints vec limit with
    | .error _ => ⟨(none, none), 1, 1, true⟩
    | .ok hits =>
      if hits.isEmpty then ⟨(none, none), 1, 1, false⟩
      else
        match buildResourceContext hits with
        | .error _ => ⟨(none, none), 1, 1, true⟩
        | .ok context => ⟨(some context, some hits), 1, 1, false⟩

/-! ## The LLM calls (main.py lines 124-146 and 628-648) -/

/-- One chat message of the request body. -/
structure ChatMessage where
  role : String
  content : String
deriving DecidableEq, Repr

/-- The request sent to `groq_client.chat.completions.create`. -/
structure ChatRequest where
  model : String
  messages : List ChatMessage
  temperature : Nat
  max_tokens : Nat
deriving DecidableEq, Repr

/-- Literal before the context in `query_llm`'s user message (main.py 131-134). -/
def llmUserPre : String :=
  "\n                Based on the following information and query, provide a helpful response:\n\n                Context:\n                "

/-- Literal between context and query in `query_llm`'s user message. -/
def llmUserMid : String := "\n\n                User Query: "

/-- Literal after the query in `query_llm`'s user message (main.py 138-139). -/
def llmUserPost : String :=
  "\n\n                Please provide a structured response that addresses the query."

/-- The user-role message of `query_llm`: the f-string of main.py
lines 131-139, a fixed template with the two interpolation points
`{context}` and `{user_query}`. -/
def llmUserContent (context user_query : String) : String :=
  llmUserPre ++ context ++ llmUserMid ++ user_query ++ llmUserPost

/-- The full request built by `query_llm` (main.py lines 127-143). -/
def llmRequest (context user_query system_role : String) : ChatRequest :=
  ⟨"mixtral-8x7b-32768",
    [⟨"system", system_role⟩, ⟨"user", llmUserContent context user_query⟩], 1, 500⟩

/-- `query_llm` (main.py lines 124-146): send the templated request to the
provider (modelled by `complete`); on success return the completion
content, on any exception return the apology string carrying the cause. -/
def query_llm (complete : ChatRequest → Except String String)
    (context user_query system_role : String) : String :=
  match complete (llmRequest context user_query system_role) with
  | .ok content => content
  | .error e => "I apologize, but I encountered an error: " ++ e

/-- The system message of `query_groq_llm` (main.py lines 634-635). -/
def groqSystemContent : String :=
  "You are a helpful academic advisor. Provide clear, concise information about courses based on the search results."

/-- Literal before the context in `query_groq_llm`'s user message (main.py 636-639). -/
def groqUserPre : String :=
  "\n                    Based on the following course information and user query, provide a helpful response:\n                    Search Results:\n                    "

/-- Literal between context and query in `query_groq_llm`'s user message. -/
def groqUserMid : String := "\n                    User Query: "

/-- Literal after the query in `query_groq_llm`'s user message. -/
def groqUserPost : String := "\n                    "

/-- The user-role message of `query_groq_llm`: the f-string of main.py
lines 636-641, a fixed template with the two interpolation points
`{context}` and `{user_query}`. -/
def groqUserContent (context user_query : String) : String :=
  groqUserPre ++ context ++ groqUserMid ++ user_query ++ groqUserPost

/-- The full request built by `query_groq_llm` (main.py lines 631-645). -/
def groqRequest (context user_query : String) : ChatRequest :=
  ⟨"mixtral-8x7b-32768",
    [⟨"system", groqSystemContent⟩, ⟨"user", groqUserContent context user_query⟩], 1, 500⟩

/-- `query_groq_llm` (main.py lines 628-648): like `query_llm` but with the
BSW template and a different error string. -/
def query_groq_llm (complete : ChatRequest → Except String String)
    (context user_query : String) : String :=
  match complete (groqRequest context user_query) with
  | .ok content => content
  | .error e => "Error querying Groq LLM: " ++ e

/-! ## `format_links` and the BSW LINKS context (main.py lines 612-669) -/

/-- `format_links` (main.py lines 612-626).  `loads` models the external
`json.loads`: `none` stands for `json.JSONDecodeError`.  A list is
returned unchanged; a string is replaced by its JSON parse when
parseable and otherwise wrapped in a one-element list; anything else
yields the empty list. -/
def format_links (loads : String → Option PyVal) (source_data : PyVal) : PyVal :=
  match source_data with
  | .list xs => .list xs
  | .str s =>
    match loads s with
    | some v => v
    | none => .list [.str s]
  | _ => .list []

/-- One block of the BSW LINKS context (main.py lines 664-667): four
adjacent f-strings (note the duplicated `Year:` line, the first without
a trailing newline), with a `', '.join(format_links(...))` that raises
`TypeError` when the links are not all strings. -/
def renderBswBlock (loads : String → Option PyVal) (h : Hit) : Except String String :=
  match pyJoin ", " (format_links loads (pyGet h.payload "source" (.list []))) with
  | .error e => .error e
  | .ok links =>
    .ok ("Resource Title: " ++ pyStr (pyGet h.payload "name" (.str "N/A")) ++ "\n"
      ++ "Year: " ++ pyStr (pyGet h.payload "Year" (.str "N/A"))
      ++ "Year: " ++ pyStr (pyGet h.payload "Year" (.str "N/A")) ++ "\n"
      ++ "Links: " ++ links)

/-- The `"\n\n".join(...)` comprehension of the BSW LINKS branch
(main.py lines 663-669). -/
def bswBuildContext (loads : String → Option PyVal) (hits : List Hit) :
    Except String String :=
  match mapExcept (renderBswBlock loads) hits with
  | .error e => .error e
  | .ok blocks => .ok (joinSep "\n\n" blocks)

/-! ## The course result expander (main.py lines 506-516) -/

/-- The expander header
`f"📘 {hit.payload['course_code']} - {hit.payload.get('title', 'N/A')}"`:
`course_code` is read by direct indexing. -/
def courseExpanderHeader (h : Hit) : Except String String :=
  match pyIndex h.payload "course_code" with
  | .error e => .error e
  | .ok cc =>
    .ok ("📘 " ++ pyStr cc ++ " - " ++ pyStr (pyGet h.payload "title" (.str "N/A")))

/-- Literal opening the expander body f-string (main.py 508-510). -/
def courseBodyPre : String :=
  "\n                            ### Course Information\n                            * Course Code: "

/-- Literal before the dumped credits. -/
def courseBodyMid1 : String := "\n                            * Credits: "

/-- Literal before the joined prerequisites. -/
def courseBodyMid2 : String := "\n                            * Prerequisites: "

/-- Literal before the description. -/
def courseBodyMid3 : String :=
  "\n\n                            ### Description\n                            "

/-- Literal closing the expander body f-string. -/
def courseBodyPost : String := "\n                            "

/-- The expander body f-string (main.py lines 508-516): direct
`['course_code']` read, `json.dumps` of `.get('credits', {})`,
`', '.join` of `.get('prerequisites', [])`, `.get('description', 'N/A')`. -/
def courseExpanderBody (h : Hit) : Except String String :=
  match pyIndex h.payload "course_code" with
  | .error e => .error e
  | .ok cc =>
    match pyJoin ", " (pyGet h.payload "prerequisites" (.list [])) with
    | .error e => .error e
    | .ok prereqs =>
      .ok (courseBodyPre ++ pyStr cc
        ++ courseBodyMid1 ++ pyJsonDumps (pyGet h.payload "credits" (.dict []))
        ++ courseBodyMid2 ++ prereqs
        ++ courseBodyMid3 ++ pyStr (pyGet h.payload "description" (.str "N/A"))
        ++ courseBodyPost)

/-! ## The page flows -/

/-- What one submission of a query form renders. -/
inductive Outcome where
  | NoQuery
  | NoResults
  | Answered (answer : String) (hits : List Hit)
  | Errored

/-- Observable behaviour of one course/counselling form submission. -/
structure FlowOut where
  outcome : Outcome
  embedderCalls : Nat
  searchCalls : Nat
  llmCalls : Nat
  errorShown : Bool

/-- The course and counselling query forms (main.py lines 209-228 and
490-516 — identical control flow, differing only in client, collection
and system role):
`if submitted and user_query:` then `search_qdrant`, then
`if context and hits:` call `query_llm` and render, else render nothing. -/
def qdrantFlow (svc : SearchSvc) (complete : ChatRequest → Except String String)
    (system_role : String) (submitted : Bool) (user_query : String) : FlowOut :=
  if submitted && pyTruthyStr user_query then
    let s := search_qdrant svc user_query
    match s.result with
    | (some context, some hits) =>
      if pyTruthyStr context && !hits.isEmpty then
        let ans := query_llm complete context user_query system_role
        ⟨.Answered ans hits, s.embedderCalls, s.searchCalls, 1, s.errorShown⟩
      else ⟨.NoResults, s.embedderCalls, s.searchCalls, 0, s.errorShown⟩
    | _ => ⟨.NoResults, s.embedderCalls, s.searchCalls, 0, s.errorShown⟩
  else ⟨.NoQuery, 0, 0, 0, false⟩

/-- Observable behaviour of one BSW LINKS submission. -/
structure BswOut where
  outcome : Outcome
  embedderCalls : Nat
  searchCalls : Nat
  llmCalls : Nat
  warningShown : Bool
  errorShown : Bool

/-- The BSW LINKS branch (main.py lines 651-688): `if user_query:`, then
`encode` OUTSIDE the `try` block (an embedder exception is unhandled and
crashes the script run — the `.error` result), then inside the `try`:
search with limit 5, on zero hits `st.warning`, otherwise build the
context (a `TypeError` from the links join is caught by the broad
`except` as `st.error`), call `query_groq_llm` and render. -/
def bswFlow (svc : SearchSvc) (loads : String → Option PyVal)
    (complete : ChatRequest → Except String String) (user_query : String) :
    Except String BswOut :=
  if pyTruthyStr user_query then
    match svc.encode user_query with
    | .error e => .error e
    | .ok vec =>
      match svc.queryPoints vec 5 with
      | .error _ => .ok ⟨.Errored, 1, 1, 0, false, true⟩
      | .ok hits =>
        if hits.isEmpty then .ok ⟨.NoResults, 1, 1, 0, true, false⟩
        else
          match bswBuildContext loads hits with
          | .error _ => .ok ⟨.Errored, 1, 1, 0, false, true⟩
          | .ok context =>
            let response := query_groq_llm complete context user_query
            .ok ⟨.Answered response hits, 1, 1, 1, false, false⟩
  else .ok ⟨.NoQuery, 0, 0, 0, false, false⟩

/-! ## Concrete fixtures used by witnesses and counterexamples -/

/-- Stub services: a fixed embedding vector, an index with no matches. -/
def svcNoHits : SearchSvc := ⟨fun _ => .ok [0], fun _ _ => .ok []⟩

/-- The end-to-end scenario document of spec §8: score 0.82, payload with
`course_code`, `title`, `prerequisites` and `description`. -/
def mlDoc : Hit :=
  ⟨(82 : Rat) / 100,
    [("course_code", .str "COL774"), ("title", .str "Machine Learning"),
     ("prerequisites", .list [.str "COL100", .str "MTL106"]),
     ("description", .str "...")]⟩

/-- A hit with both `title` and `description` present. -/
def hitA : Hit := ⟨(9 : Rat) / 10, [("title", .str "A"), ("description", .str "da")]⟩

/-- A hit with `title` but no `description`. -/
def hitB : Hit := ⟨(7 : Rat) / 10, [("title", .str "B")]⟩

/-- Whether an embedded Python expression produced a value (no exception). -/
def exceptIsOk : Except String String → Bool
  | .ok _ => true
  | .error _ => false

/-! ## Helper lemmas -/

/-- The embedder is called exactly once on every path through `search_qdrant`. -/
theorem search_qdrant_embedderCalls (svc : SearchSvc) (q : String) (limit : Nat) :
    (search_qdrant svc q limit).embedderCalls = 1 := by
  unfold search_qdrant
  split
  · rfl
  split
  · rfl
  split
  · rfl
  split <;> rfl

/-- `search_qdrant` when the embedder raises. -/
theorem search_qdrant_encode_error (svc : SearchSvc) (q : String) (limit : Nat)
    (e : String) (he : svc.encode q = .error e) :
    search_qdrant svc q limit = ⟨(none, none), 1, 0, true⟩ := by
  unfold search_qdrant; rw [he]

/-- `search_qdrant` when the index call raises. -/
theorem search_qdrant_search_error (svc : SearchSvc) (q : String) (limit : Nat)
    (vec : List Int) (e : String)
    (he : svc.encode q = .ok vec) (hq : svc.queryPoints vec limit = .error e) :
    search_qdrant svc q limit = ⟨(none, none), 1, 1, true⟩ := by
  simp [search_qdrant, he, hq]

/-- `search_qdrant` when the index returns zero hits: `(None, None)`,
no error shown. -/
theorem search_qdrant_no_hits (svc : SearchSvc) (q : String) (limit : Nat)
    (vec : List Int)
    (he : svc.encode q = .ok vec) (hq : svc.queryPoints vec limit = .ok []) :
    search_qdrant svc q limit = ⟨(none, none), 1, 1, false⟩ := by
  simp [search_qdrant, he, hq]

/-- `search_qdrant` when formatting the non-empty hit list raises
(`KeyError` on a payload without `title`): caught, error shown,
`(None, None)` returned. -/
theorem search_qdrant_format_error (svc : SearchSvc) (q : String) (limit : Nat)
    (vec : List Int) (h0 : Hit) (hs : List Hit) (e : String)
    (he : svc.encode q = .ok vec) (hq : svc.queryPoints vec limit = .ok (h0 :: hs))
    (hb : buildResourceContext (h0 :: hs) = .error e) :
    search_qdrant svc q limit = ⟨(none, none), 1, 1, true⟩ := by
  simp [search_qdrant, he, hq, hb]

/-- `search_qdrant` on the fully successful path. -/
theorem search_qdrant_success (svc : SearchSvc) (q : String) (limit : Nat)
    (vec : List Int) (h0 : Hit) (hs : List Hit) (c : String)
    (he : svc.encode q = .ok vec) (hq : svc.queryPoints vec limit = .ok (h0 :: hs))
    (hb : buildResourceContext (h0 :: hs) = .ok c) :
    search_qdrant svc q limit = ⟨(some c, some (h0 :: hs)), 1, 1, false⟩ := by
  simp [search_qdrant, he, hq, hb]

/-- A successful left-to-right comprehension yields one output per input,
the `i`-th output coming from the `i`-th input. -/
theorem mapExcept_ok_spec (f : α → Except String β) :
    ∀ (xs : List α) (ys : List β), mapExcept f xs = .ok ys →
      ys.length = xs.length
      ∧ ∀ i (hx : i < xs.length) (hy : i < ys.length),
          f (xs.get ⟨i, hx⟩) = .ok (ys.get ⟨i, hy⟩) := by
  intro xs
  induction xs with
  | nil =>
    intro ys h
    simp only [mapExcept, Except.ok.injEq] at h
    subst h
    exact ⟨rfl, fun i hx => by simp at hx⟩
  | cons x xs ih =>
    intro ys h
    simp only [mapExcept] at h
    rcases hf : f x with e | y <;> rw [hf] at h
    · exact absurd h (by simp)
    · rcases hm : mapExcept f xs with e | ys' <;> rw [hm] at h
      · exact absurd h (by simp)
      · simp only [Except.ok.injEq] at h
        subst h
        obtain ⟨hl, hg⟩ := ih ys' hm
        refine ⟨by simp [hl], ?_⟩
        intro i hx hy
        cases i with
        | zero => simpa using hf
        | succ n => simpa using hg n (by simpa using hx) (by simpa using hy)

/-- A comprehension whose body succeeds on every element succeeds. -/
theorem mapExcept_isOk_of_all (f : α → Except String β) :
    ∀ xs : List α, (∀ x ∈ xs, ∃ y, f x = .ok y) → ∃ ys, mapExcept f xs = .ok ys := by
  intro xs
  induction xs with
  | nil => intro _; exact ⟨[], rfl⟩
  | cons x xs ih =>
    intro h
    obtain ⟨y, hy⟩ := h x (by simp)
    obtain ⟨ys, hys⟩ := ih (fun a ha => h a (by simp [ha]))
    exact ⟨y :: ys, by simp [mapExcept, hy, hys]⟩

/-- `str.join` succeeds on a list of strings. -/
theorem pyStrList_map_str : ∀ ss : List String, pyStrList (ss.map PyVal.str) = .ok ss := by
  intro ss
  induction ss with
  | nil => rfl
  | cons s ss ih => simp [pyStrList, ih]

/-! ## Claims C1 and C3: guards and the no-results path -/

/-- C1 (counterexample): the claim says a whitespace-only query performs
no work and makes zero external calls.  In the code the guards
`if submitted and user_query:` / `if user_query:` only test string
truthiness, so the whitespace-only query `" "` passes them: with a stub
index returning no hits, the course/counselling form still makes one
embedder call and one index call (and renders the no-results state, not
the no-query state). -/
theorem c1_counterexample :
    qdrantFlow svcNoHits (fun _ => .error "down") "role" true " "
      = ⟨.NoResults, 1, 1, 0, false⟩
    ∧ bswFlow svcNoHits (fun _ => none) (fun _ => .error "down") " "
      = .ok ⟨.NoResults, 1, 1, 0, true, false⟩ := ⟨rfl, rfl⟩

/-- C1 (amended): only the EMPTY query short-circuits: both entry points
then perform no work and make zero external calls.  A whitespace-only
query passes the truthiness guard and the embedder is invoked. -/
theorem c1_amended :
    (∀ (svc : SearchSvc) (complete : ChatRequest → Except String String)
        (role : String) (submitted : Bool),
        qdrantFlow svc complete role submitted "" = ⟨.NoQuery, 0, 0, 0, false⟩)
    ∧ (∀ (svc : SearchSvc) (loads : String → Option PyVal)
        (complete : ChatRequest → Except String String),
        bswFlow svc loads complete "" = .ok ⟨.NoQuery, 0, 0, 0, false, false⟩)
    ∧ (∀ (svc : SearchSvc) (complete : ChatRequest → Except String String)
        (role : String),
        (qdrantFlow svc complete role true " ").embedderCalls = 1) := by
  refine ⟨?_, ?_, ?_⟩
  · intro svc complete role submitted
    simp [qdrantFlow, pyTruthyStr]
  · intro svc loads complete
    simp [bswFlow, pyTruthyStr]
  · intro svc complete role
    have h : (search_qdrant svc " ").embedderCalls = 1 :=
      search_qdrant_embedderCalls svc " " 3
    unfold qdrantFlow
    rcases hs : search_qdrant svc " " with ⟨⟨o1, o2⟩, ec, sc, er⟩
    rw [hs] at h
    have hec : ec = 1 := h
    subst hec
    rcases o1 with _ | c <;> rcases o2 with _ | hits <;> simp [pyTruthyStr]
    split <;> rfl

/-- C3 (confirmed): whenever the index returns zero documents for a
non-empty query, both flows reach the no-results state with no LLM call
(`llmCalls = 0`) and nothing on the error channel (`errorShown = false`;
the BSW branch uses `st.warning`). -/
theorem c3_no_results_no_llm (svc : SearchSvc) (loads : String → Option PyVal)
    (complete : ChatRequest → Except String String) (role q : String) (vec : List Int)
    (hq : pyTruthyStr q = true)
    (he : svc.encode q = .ok vec)
    (h3 : svc.queryPoints vec 3 = .ok [])
    (h5 : svc.queryPoints vec 5 = .ok []) :
    qdrantFlow svc complete role true q = ⟨.NoResults, 1, 1, 0, false⟩
    ∧ bswFlow svc loads complete q = .ok ⟨.NoResults, 1, 1, 0, true, false⟩ := by
  constructor
  · unfold qdrantFlow
    rw [search_qdrant_no_hits svc q 3 vec he h3]
    simp [hq]
  · simp [bswFlow, hq, he, h5]

/-- Witness for C3 at a concrete stub service and query. -/
theorem c3_witness :
    qdrantFlow svcNoHits (fun _ => .ok "ans") "role" true "machine learning"
      = ⟨.NoResults, 1, 1, 0, false⟩
    ∧ bswFlow svcNoHits (fun _ => none) (fun _ => .ok "ans") "machine learning"
      = .ok ⟨.NoResults, 1, 1, 0, true, false⟩ :=
  c3_no_results_no_llm svcNoHits (fun _ => none) (fun _ => .ok "ans") "role"
    "machine learning" [0] rfl rfl rfl rfl

/-! ## Claim C2: payload reads and fallbacks -/

/-- C2 (counterexample): the claim says every payload read supplies a
fallback and no missing field ever causes a fault.  But the resource
context block reads `hit.payload[\x27title\x27]` by direct indexing: on a
document whose payload has a `description` but no `title`, the block
raises `KeyError` instead of rendering. -/
theorem c2_counterexample :
    renderResourceBlock ⟨0, [("description", .str "desc")]⟩
      = .error "KeyError: title" := rfl

/-- C2 (amended): reads made with `.get` do supply fallbacks — a missing
scalar renders as the fixed "N/A" placeholder, missing `credits` as the
dumped empty dict, and a missing list field as an empty joined string —
but the two direct-indexed reads (`title` in the resource context
formatter, `course_code` in the course result expander) raise `KeyError`
when the field is missing. -/
theorem c2_amended :
    (∀ (sc : Rat) (p : List (String × PyVal)) (t : String),
        lookupField p "title" = some (.str t) →
        lookupField p "description" = none →
        renderResourceBlock ⟨sc, p⟩
          = .ok ("Resource: " ++ t ++ "\nDescription: " ++ "N/A"))
    ∧ (∀ (sc : Rat) (p : List (String × PyVal)),
        lookupField p "title" = none →
        renderResourceBlock ⟨sc, p⟩ = .error "KeyError: title")
    ∧ (∀ (sc : Rat) (p : List (String × PyVal)) (cc : String),
        lookupField p "course_code" = some (.str cc) →
        lookupField p "title" = none →
        lookupField p "credits" = none →
        lookupField p "prerequisites" = none →
        lookupField p "description" = none →
        courseExpanderHeader ⟨sc, p⟩ = .ok ("📘 " ++ cc ++ " - " ++ "N/A")
        ∧ courseExpanderBody ⟨sc, p⟩
            = .ok (courseBodyPre ++ cc ++ courseBodyMid1 ++ "\x7b\x7d"
                ++ courseBodyMid2 ++ "" ++ courseBodyMid3 ++ "N/A" ++ courseBodyPost))
    ∧ (∀ (sc : Rat) (p : List (String × PyVal)),
        lookupField p "course_code" = none →
        courseExpanderHeader ⟨sc, p⟩ = .error "KeyError: course_code"
        ∧ courseExpanderBody ⟨sc, p⟩ = .error "KeyError: course_code") := by
  refine ⟨?_, ?_, ?_, ?_⟩
  · intro sc p t ht hd
    simp [renderResourceBlock, pyIndex, pyGet, ht, hd, pyStr]
  · intro sc p ht
    simp [renderResourceBlock, pyIndex, ht]
  · intro sc p cc hcc ht hcr hpr hd
    constructor
    · simp [courseExpanderHeader, pyIndex, pyGet, hcc, ht, pyStr]
    · simp [courseExpanderBody, pyIndex, pyGet, hcc, hcr, hpr, hd, pyStr,
        pyJoin, pyStrList, joinSep, pyJsonDumps]
  · intro sc p hcc
    constructor
    · simp [courseExpanderHeader, pyIndex, hcc]
    · simp [courseExpanderBody, pyIndex, hcc]

/-- Witness for C2 at concrete payloads. -/
theorem c2_witness :
    renderResourceBlock ⟨0, [("title", .str "Wellness")]⟩
      = .ok ("Resource: " ++ "Wellness" ++ "\nDescription: " ++ "N/A")
    ∧ courseExpanderHeader ⟨0, [("course_code", .str "COL100")]⟩
      = .ok ("📘 " ++ "COL100" ++ " - " ++ "N/A") :=
  ⟨c2_amended.1 0 [("title", .str "Wellness")] "Wellness" rfl rfl,
   (c2_amended.2.2.1 0 [("course_code", .str "COL100")] "COL100" rfl rfl rfl rfl rfl).1⟩

/-! ## Claim C4: synthesis failure handling -/

/-- C4 (counterexample): the claim says every synthesis failure is
replaced by a message of the form
"I apologize, but I encountered an error: <cause>".  The BSW variant
`query_groq_llm` instead returns "Error querying Groq LLM: <cause>". -/
theorem c4_counterexample :
    query_groq_llm (fun _ => .error "boom") "some context" "some query"
      = "Error querying Groq LLM: boom"
    ∧ query_groq_llm (fun _ => .error "boom") "some context" "some query"
      ≠ "I apologize, but I encountered an error: boom" := by
  refine ⟨rfl, ?_⟩
  decide

/-- C4 (amended): neither synthesis call propagates a provider failure
(both return a plain string for every provider outcome by construction);
on failure `query_llm` returns the apology message carrying the cause,
while `query_groq_llm` returns "Error querying Groq LLM: <cause>". -/
theorem c4_amended (complete : ChatRequest → Except String String)
    (context user_query system_role e : String)
    (h1 : complete (llmRequest context user_query system_role) = .error e)
    (h2 : complete (groqRequest context user_query) = .error e) :
    query_llm complete context user_query system_role
      = "I apologize, but I encountered an error: " ++ e
    ∧ query_groq_llm complete context user_query
      = "Error querying Groq LLM: " ++ e := by
  unfold query_llm query_groq_llm
  rw [h1, h2]
  exact ⟨rfl, rfl⟩

/-- Witness for C4 at a concrete always-failing provider. -/
theorem c4_witness :
    query_llm (fun _ => .error "rate limit") "c" "q" "r"
      = "I apologize, but I encountered an error: " ++ "rate limit"
    ∧ query_groq_llm (fun _ => .error "rate limit") "c" "q"
      = "Error querying Groq LLM: " ++ "rate limit" :=
  c4_amended (fun _ => .error "rate limit") "c" "q" "r" "rate limit" rfl rfl

/-! ## Claim C5: the end-to-end course scenario -/

/-- C5 (counterexample): for the single course document of spec §8, the
formatted context string is built by the shared "Resource:/Description:"
template, so it is "Resource: Machine Learning\nDescription: ..." and
contains neither "Course: COL774 - Machine Learning" nor
"Prerequisites: COL100, MTL106". -/
theorem c5_counterexample :
    buildResourceContext [mlDoc] = .ok "Resource: Machine Learning\nDescription: ..."
    ∧ strContains "Resource: Machine Learning\nDescription: ..."
        "Course: COL774 - Machine Learning" = false
    ∧ strContains "Resource: Machine Learning\nDescription: ..."
        "Prerequisites: COL100, MTL106" = false := by
  refine ⟨rfl, ?_, ?_⟩ <;> decide

/-- C5 (amended): the formatted context for the spec §8 course document is
"Resource: Machine Learning\nDescription: ..." (the course flow reuses the
resource template, projecting only `title` and `description`); the strings
the claim expects appear instead in the per-hit expander: its header is
"📘 COL774 - Machine Learning" and its body contains
"Course Code: COL774" and "Prerequisites: COL100, MTL106". -/
theorem c5_amended :
    buildResourceContext [mlDoc] = .ok "Resource: Machine Learning\nDescription: ..."
    ∧ courseExpanderHeader mlDoc = .ok "📘 COL774 - Machine Learning"
    ∧ (∃ body, courseExpanderBody mlDoc = .ok body
        ∧ strContains body "Course Code: COL774" = true
        ∧ strContains body "Prerequisites: COL100, MTL106" = true) := by
  refine ⟨rfl, rfl, ⟨_, rfl, ?_, ?_⟩⟩ <;> decide

/-! ## Claim C6: the user-role message template -/

/-- C6 (counterexample): the claim says every synthesis call's user
message explicitly asks for a response addressing the query.  The BSW
variant's user message does not: at concrete context and query it
contains neither "addresses the query" nor "addressing the query". -/
theorem c6_counterexample :
    strContains (groqUserContent "sample context" "sample query")
      "addresses the query" = false
    ∧ strContains (groqUserContent "sample context" "sample query")
      "addressing the query" = false := by
  refine ⟨?_, ?_⟩ <;> decide

/-- C6 (amended): both user messages are fixed templates with exactly two
interpolation points carrying the formatted context and the original
query verbatim, and both requests send exactly a system message and that
user message; the course/counselling template additionally asks for a
response that "addresses the query", while the BSW template only asks
for "a helpful response". -/
theorem c6_amended :
    (∀ context user_query : String,
        llmUserContent context user_query
          = llmUserPre ++ context ++ llmUserMid ++ user_query ++ llmUserPost)
    ∧ strContains llmUserPost "addresses the query" = true
    ∧ (∀ context user_query system_role : String,
        (llmRequest context user_query system_role).messages
          = [⟨"system", system_role⟩, ⟨"user", llmUserContent context user_query⟩])
    ∧ (∀ context user_query : String,
        groqUserContent context user_query
          = groqUserPre ++ context ++ groqUserMid ++ user_query ++ groqUserPost)
    ∧ (∀ context user_query : String,
        (groqRequest context user_query).messages
          = [⟨"system", groqSystemContent⟩, ⟨"user", groqUserContent context user_query⟩])
    ∧ strContains (groqUserPre ++ groqUserMid ++ groqUserPost) "addresses the query" = false := by
  exact ⟨fun _ _ => rfl, by decide, fun _ _ _ => rfl, fun _ _ => rfl, fun _ _ => rfl, by decide⟩

/-! ## Claim C7: rank order preservation in the context -/

/-- C7 (confirmed): whenever the per-document blocks of a hit sequence all
render, each formatter joins them with the blank-line separator
`"\n\n"`, producing one block per document with the `i`-th block coming
from the `i`-th document — rank order is preserved. -/
theorem c7_rank_order_preserved :
    (∀ (hits : List Hit) (blocks : List String),
        mapExcept renderResourceBlock hits = .ok blocks →
        buildResourceContext hits = .ok (joinSep "\n\n" blocks)
        ∧ blocks.length = hits.length
        ∧ ∀ i (hx : i < hits.length) (hy : i < blocks.length),
            renderResourceBlock (hits.get ⟨i, hx⟩) = .ok (blocks.get ⟨i, hy⟩))
    ∧ (∀ (loads : String → Option PyVal) (hits : List Hit) (blocks : List String),
        mapExcept (renderBswBlock loads) hits = .ok blocks →
        bswBuildContext loads hits = .ok (joinSep "\n\n" blocks)
        ∧ blocks.length = hits.length
        ∧ ∀ i (hx : i < hits.length) (hy : i < blocks.length),
            renderBswBlock loads (hits.get ⟨i, hx⟩) = .ok (blocks.get ⟨i, hy⟩)) := by
  constructor
  · intro hits blocks h
    obtain ⟨hl, hg⟩ := mapExcept_ok_spec renderResourceBlock hits blocks h
    exact ⟨by simp [buildResourceContext, h], hl, hg⟩
  · intro loads hits blocks h
    obtain ⟨hl, hg⟩ := mapExcept_ok_spec (renderBswBlock loads) hits blocks h
    exact ⟨by simp [bswBuildContext, h], hl, hg⟩

/-- Witness for C7: two concrete documents A (score 0.9) and B (score
0.7) format to A-block before B-block, joined by a blank line. -/
theorem c7_witness :
    buildResourceContext [hitA, hitB]
      = .ok (joinSep "\n\n"
          ["Resource: A\nDescription: da", "Resource: B\nDescription: N/A"]) :=
  (c7_rank_order_preserved.1 [hitA, hitB]
    ["Resource: A\nDescription: da", "Resource: B\nDescription: N/A"] rfl).1

/-! ## Claim C8: purity and totality of the context formatter -/

/-- C8 (counterexample): the claim says the formatter produces a string
for EVERY document sequence.  On a document whose payload lacks `title`
the formatting expression raises `KeyError` instead of producing a
string. -/
theorem c8_counterexample :
    exceptIsOk (buildResourceContext [⟨(1 : Rat) / 2, [("descr", .str "x")]⟩]) = false
    ∧ buildResourceContext [⟨(1 : Rat) / 2, [("descr", .str "x")]⟩]
      = .error "KeyError: title" := ⟨rfl, rfl⟩

/-- C8 (amended): the formatter is a pure terminating function —
equal inputs give equal outputs, and the empty sequence yields the empty
string — and it produces a string for every sequence whose documents all
carry a `title` field; a document without `title` makes it raise
`KeyError` instead of producing a string. -/
theorem c8_amended :
    (∀ docs1 docs2 : List Hit, docs1 = docs2 →
        buildResourceContext docs1 = buildResourceContext docs2)
    ∧ buildResourceContext [] = .ok ""
    ∧ (∀ docs : List Hit,
        (∀ h ∈ docs, (lookupField h.payload "title").isSome = true) →
        exceptIsOk (buildResourceContext docs) = true) := by
  refine ⟨fun _ _ h => h ▸ rfl, rfl, ?_⟩
  intro docs hdocs
  have : ∀ h ∈ docs, ∃ b, renderResourceBlock h = .ok b := by
    intro h hh
    have := hdocs h hh
    rcases hv : lookupField h.payload "title" with _ | v
    · rw [hv] at this; simp at this
    · exact ⟨"Resource: " ++ pyStr v ++ "\nDescription: "
          ++ pyStr (pyGet h.payload "description" (PyVal.str "N/A")),
        by simp [renderResourceBlock, pyIndex, hv]⟩
  obtain ⟨ys, hys⟩ := mapExcept_isOk_of_all renderResourceBlock docs this
  simp [buildResourceContext, hys, exceptIsOk]

/-- Witness for C8: determinism and string production at a concrete
document list. -/
theorem c8_witness :
    buildResourceContext [hitA] = buildResourceContext [hitA]
    ∧ exceptIsOk (buildResourceContext [hitA]) = true :=
  ⟨c8_amended.1 [hitA] [hitA] rfl,
   c8_amended.2.2 [hitA] (by intro h hh; simp at hh; subst hh; rfl)⟩

/-! ## Claim C9: the linked return values of `search_qdrant` -/

/-- C9 (confirmed): `search_qdrant` returns `some context` together with
`some hits` (a non-empty list) exactly when the whole guarded block ran
without exception and found at least one hit; the no-hits case and every
exception case (embedder, index, formatting `KeyError`) all return the
indistinguishable pair `(none, none)`. -/
theorem c9_search_qdrant_pairing (svc : SearchSvc) (q : String) :
    ((search_qdrant svc q).result.1 = none ↔ (search_qdrant svc q).result.2 = none)
    ∧ (∀ context hits, (search_qdrant svc q).result = (some context, some hits) →
        hits ≠ [] ∧ ∃ vec, svc.encode q = .ok vec ∧ svc.queryPoints vec 3 = .ok hits
          ∧ buildResourceContext hits = .ok context)
    ∧ (∀ e, svc.encode q = .error e → (search_qdrant svc q).result = (none, none))
    ∧ (∀ vec e, svc.encode q = .ok vec → svc.queryPoints vec 3 = .error e →
        (search_qdrant svc q).result = (none, none))
    ∧ (∀ vec, svc.encode q = .ok vec → svc.queryPoints vec 3 = .ok [] →
        (search_qdrant svc q).result = (none, none))
    ∧ (∀ vec h0 hs e, svc.encode q = .ok vec → svc.queryPoints vec 3 = .ok (h0 :: hs) →
        buildResourceContext (h0 :: hs) = .error e →
        (search_qdrant svc q).result = (none, none))
    ∧ (∀ vec h0 hs context, svc.encode q = .ok vec →
        svc.queryPoints vec 3 = .ok (h0 :: hs) →
        buildResourceContext (h0 :: hs) = .ok context →
        (search_qdrant svc q).result = (some context, some (h0 :: hs))) := by
  refine ⟨?_, ?_, ?_, ?_, ?_, ?_, ?_⟩
  · rcases he : svc.encode q with e | vec
    · rw [search_qdrant_encode_error svc q 3 e he]; simp
    · rcases hq : svc.queryPoints vec 3 with e | hits
      · rw [search_qdrant_search_error svc q 3 vec e he hq]; simp
      · rcases hits with _ | ⟨h0, hs⟩
        · rw [search_qdrant_no_hits svc q 3 vec he hq]; simp
        · rcases hb : buildResourceContext (h0 :: hs) with e | c
          · rw [search_qdrant_format_error svc q 3 vec h0 hs e he hq hb]; simp
          · rw [search_qdrant_success svc q 3 vec h0 hs c he hq hb]; simp
  · intro context hits hres
    rcases he : svc.encode q with e | vec
    · rw [search_qdrant_encode_error svc q 3 e he] at hres; simp at hres
    · rcases hq : svc.queryPoints vec 3 with e | hlist
      · rw [search_qdrant_search_error svc q 3 vec e he hq] at hres; simp at hres
      · rcases hlist with _ | ⟨h0, hs⟩
        · rw [search_qdrant_no_hits svc q 3 vec he hq] at hres; simp at hres
        · rcases hb : buildResourceContext (h0 :: hs) with e | c
          · rw [search_qdrant_format_error svc q 3 vec h0 hs e he hq hb] at hres
            simp at hres
          · rw [search_qdrant_success svc q 3 vec h0 hs c he hq hb] at hres
            simp only [Prod.mk.injEq, Option.some.injEq] at hres
            obtain ⟨hc, hh⟩ := hres
            refine ⟨?_, vec, rfl, ?_, ?_⟩
            · rw [← hh]; simp
            · rw [← hh]; exact hq
            · rw [← hh, ← hc]; exact hb
  · intro e he
    rw [search_qdrant_encode_error svc q 3 e he]
  · intro vec e he hq
    rw [search_qdrant_search_error svc q 3 vec e he hq]
  · intro vec he hq
    rw [search_qdrant_no_hits svc q 3 vec he hq]
  · intro vec h0 hs e he hq hb
    rw [search_qdrant_format_error svc q 3 vec h0 hs e he hq hb]
  · intro vec h0 hs context he hq hb
    rw [search_qdrant_success svc q 3 vec h0 hs context he hq hb]

/-- Witness for C9: with a stub service finding no hits, the returned
pair is `(none, none)`. -/
theorem c9_witness :
    (search_qdrant svcNoHits "query").result = (none, none) :=
  (c9_search_qdrant_pairing svcNoHits "query").2.2.2.2.1 [0] rfl rfl

/-! ## Claim C10: `format_links` and the links join -/

/-- C10 (counterexample): the claim says joining `format_links`\x27 result
with a comma separator never faults.  A list input is returned
unchanged, so a stored list of non-strings — here `[1, 2]` — flows
through and `\x27, \x27.join(...)` raises `TypeError`. -/
theorem c10_counterexample :
    format_links (fun _ => none) (.list [.int 1, .int 2]) = .list [.int 1, .int 2]
    ∧ pyJoin ", " (format_links (fun _ => none) (.list [.int 1, .int 2]))
      = .error "TypeError: sequence item: expected str instance" := ⟨rfl, rfl⟩

/-- C10 (amended): `format_links` terminates on every input and behaves
as described — a list is returned unchanged, a parseable string becomes
its JSON parse (whatever value that is), an unparseable string becomes a
one-element list holding it, and any other input becomes the empty
list — and joining its result with a comma separator succeeds whenever
that result is a list of strings; a non-string element makes the join
raise `TypeError`. -/
theorem c10_amended :
    (∀ (loads : String → Option PyVal) (xs : List PyVal),
        format_links loads (.list xs) = .list xs)
    ∧ (∀ (loads : String → Option PyVal) (s : String) (v : PyVal),
        loads s = some v → format_links loads (.str s) = v)
    ∧ (∀ (loads : String → Option PyVal) (s : String),
        loads s = none → format_links loads (.str s) = .list [.str s])
    ∧ (∀ (loads : String → Option PyVal) (n : Int),
        format_links loads (.int n) = .list [])
    ∧ (∀ (loads : String → Option PyVal) (es : List (String × PyVal)),
        format_links loads (.dict es) = .list [])
    ∧ (∀ (loads : String → Option PyVal) (v : PyVal) (ss : List String),
        format_links loads v = .list (ss.map PyVal.str) →
        pyJoin ", " (format_links loads v) = .ok (joinSep ", " ss)) := by
  refine ⟨fun _ _ => rfl, ?_, ?_, fun _ _ => rfl, fun _ _ => rfl, ?_⟩
  · intro loads s v h
    simp [format_links, h]
  · intro loads s h
    simp [format_links, h]
  · intro loads v ss h
    rw [h]
    simp [pyJoin, pyStrList_map_str]

/-- Witness for C10: an unparseable string is wrapped, and a list of
strings joins without fault. -/
theorem c10_witness :
    format_links (fun _ => none) (.str "bsw.iitd.ac.in") = .list [.str "bsw.iitd.ac.in"]
    ∧ pyJoin ", " (format_links (fun _ => none) (.list [.str "a", .str "b"]))
      = .ok (joinSep ", " ["a", "b"]) :=
  ⟨c10_amended.2.2.1 (fun _ => none) "bsw.iitd.ac.in" rfl,
   c10_amended.2.2.2.2.2 (fun _ => none) (.list [.str "a", .str "b"]) ["a", "b"] rfl⟩

end IITDBuddy
